import Mathlib

/-!
Verification of the AidChain backend (pipeline orchestrator, LLM consensus
engine, FDC event attestation, delivery verification, ledger adapter and
WebSocket surface) against its natural-language specification.

Conventions of the shallow embedding:
  - JavaScript numbers are modelled as rationals (ℚ); integer counters as ℕ/ℤ.
  - The haversine distance (transcendental) is kept abstract: definitions that
    consume it are parameterised over a distance function, so every theorem
    holds for the actual haversine as a special case.
  - Keccak hashes and hex digests are modelled as opaque strings; the zero
    digest is a distinguished constant.
  - Asynchronous fan-out (Promise.all over LLM nodes / data providers) is cut
    at the join point: the pure aggregation code downstream of the join is
    embedded as a function of the joined result list.
  - Fallible ledger writes are modelled with Except, with the outcome of each
    external attempt supplied by an explicit environment.
-/

namespace AidChain

/-! ## LLM consensus engine (src/backend llmPanel.js, runConsensus) -/

/-- A parsed JSON verdict from one LLM node, as required by the panel prompt
(fields of the JSON object the prompt demands). -/
structure LlmDecision where
  approved : Bool
  reason : String
  recommendedAid : Nat
  fulfillerType : Nat
  estimatedCostUSD : ℚ
  confidence : ℚ
  priorityScore : ℚ
deriving Repr, DecidableEq

/-- The per-node record built by queryNode: a node either returns a parsed
decision or fails (timeout / parse failure), recorded as decision = none. -/
structure NodeResult where
  nodeId : String
  nodeName : String
  model : String
  decision : Option LlmDecision
  latency : ℚ
  error : Option String
deriving Repr, DecidableEq

/-- The aggregate returned by runConsensus (consensus transcript fields that
are data, the hash being an opaque digest over them). -/
structure ConsensusOutcome where
  approved : Bool
  reason : String
  nodeCount : Nat
  validCount : Nat
  approvalCount : Nat
  recommendedAid : Nat
  fulfillerType : Nat
  estimatedCostUSD : ℚ
  avgConfidence : ℤ
deriving Repr, DecidableEq

/-- JavaScript Math.round: round half away from zero for positive inputs;
the code only rounds nonnegative confidences, where Math.round x = ⌊x + 1/2⌋. -/
def jsRound (q : ℚ) : ℤ := ⌊q + 1/2⌋

/-- validResults: nodes whose decision parsed. -/
def validOf (results : List NodeResult) : List NodeResult :=
  results.filter (fun r => r.decision.isSome)

/-- The parsed decisions, in node order. -/
def decisionsOf (results : List NodeResult) : List LlmDecision :=
  results.filterMap (fun r => r.decision)

/-- approvalVotes: decisions of valid nodes that voted approve. -/
def approvalsOf (results : List NodeResult) : List LlmDecision :=
  (decisionsOf results).filter (fun d => d.approved)

/-- The supermajority test of runConsensus: approvalCount * 3 > totalValid * 2. -/
def approvedOf (results : List NodeResult) : Bool :=
  decide ((approvalsOf results).length * 3 > (validOf results).length * 2)

/-- Majority vote as performed through a JavaScript object keyed by the voted
number and Object.entries(...).sort((a, b) => b[1] - a[1])[0][0]: integer keys
enumerate in ascending order and the sort is stable, so the winner is the
smallest key of maximal count. -/
def pluralityVote (votes : List Nat) : Nat :=
  let keys := (List.range ((votes.foldl max 0) + 1)).filter (fun k => votes.contains k)
  keys.foldl (fun best k => if votes.count best < votes.count k then k else best) (keys.headD 0)

/-- The cost list of the approving nodes, sorted ascending as by
sort((a, b) => a - b). -/
def sortedCostsOf (results : List NodeResult) : List ℚ :=
  List.insertionSort (· ≤ ·) ((approvalsOf results).map (fun d => d.estimatedCostUSD))

/-- Embedding of runConsensus (llmPanel.js) downstream of the Promise.all
join: the input is the list of per-node results. Reason strings keep the
fixed prefix of the template literals; interpolated counts are elided. -/
def runConsensus (results : List NodeResult) : ConsensusOutcome :=
  if (validOf results).length < 3 then
    { approved := false
      reason := "Insufficient LLM node responses for consensus"
      nodeCount := results.length
      validCount := (validOf results).length
      approvalCount := 0
      recommendedAid := 0
      fulfillerType := 0
      estimatedCostUSD := 0
      avgConfidence := 0 }
  else
    let approved := approvedOf results
    let doAgg := approved && decide (0 < (approvalsOf results).length)
    { approved := approved
      reason := if approved then "Approved by supermajority" else "Rejected: supermajority not met"
      nodeCount := results.length
      validCount := (validOf results).length
      approvalCount := (approvalsOf results).length
      recommendedAid :=
        if doAgg then pluralityVote ((approvalsOf results).map (fun d => d.recommendedAid)) else 0
      fulfillerType :=
        if doAgg then pluralityVote ((approvalsOf results).map (fun d => d.fulfillerType)) else 0
      estimatedCostUSD :=
        if doAgg then (sortedCostsOf results).getD ((sortedCostsOf results).length / 2) 0 else 0
      avgConfidence :=
        if doAgg then
          jsRound (((approvalsOf results).map (fun d => d.confidence)).sum
            / ((approvalsOf results).length : ℚ))
        else 0 }

/-- A decision template for concrete test panels. -/
def mkDecision (app : Bool) (cost : ℚ) : LlmDecision :=
  { approved := app
    reason := "assessment"
    recommendedAid := 0
    fulfillerType := 0
    estimatedCostUSD := cost
    confidence := 90
    priorityScore := 8 }

/-- A node result carrying a parsed decision. -/
def mkNode (name : String) (d : LlmDecision) : NodeResult :=
  { nodeId := name
    nodeName := name
    model := name
    decision := some d
    latency := 800
    error := none }

/-- A node whose response failed to parse or timed out. -/
def mkFailedNode (name : String) : NodeResult :=
  { nodeId := name
    nodeName := name
    model := name
    decision := none
    latency := 30000
    error := some "timeout" }

/-- Five-node panel, all approving: sample input for witnesses. -/
def panelAllApprove : List NodeResult :=
  [mkNode "gpt" (mkDecision true 120),
   mkNode "claude" (mkDecision true 140),
   mkNode "gemini" (mkDecision true 150),
   mkNode "mistral" (mkDecision true 160),
   mkNode "llama" (mkDecision true 200)]

/-- Five-node panel with only two parseable verdicts (below quorum). -/
def panelBelowQuorum : List NodeResult :=
  [mkNode "gpt" (mkDecision true 120),
   mkNode "claude" (mkDecision true 140),
   mkFailedNode "gemini",
   mkFailedNode "mistral",
   mkFailedNode "llama"]

example : (runConsensus panelAllApprove).approved = true := by decide
example : (runConsensus panelAllApprove).estimatedCostUSD = 150 := by decide
example : (runConsensus panelBelowQuorum).approved = false := by decide
example : (runConsensus panelBelowQuorum).validCount = 2 := by decide

/-- C1: every transcript runConsensus marks approved satisfies the strict
two-thirds supermajority 3 · approval_count > 2 · valid_count together with
the quorum floor valid_count ≥ 3; and whenever fewer than 3 nodes returned
parseable verdicts the transcript is marked unapproved. -/
theorem consensus_approved_supermajority_and_quorum (results : List NodeResult) :
    ((runConsensus results).approved = true →
      3 * (runConsensus results).approvalCount > 2 * (runConsensus results).validCount ∧
      3 ≤ (runConsensus results).validCount) ∧
    ((validOf results).length < 3 → (runConsensus results).approved = false) := by
  unfold runConsensus
  by_cases h : (validOf results).length < 3
  · simp [h]
  · rw [if_neg h]
    constructor
    · intro happ
      have happ2 : approvedOf results = true := happ
      have hineq := of_decide_eq_true happ2
      refine ⟨?_, ?_⟩
      · show 3 * (approvalsOf results).length > 2 * (validOf results).length
        omega
      · show 3 ≤ (validOf results).length
        omega
    · intro hlt
      exact absurd hlt h

/-- Witness for C1 at a concrete panel: the all-approve panel is approved and
satisfies supermajority and quorum, and the below-quorum panel is unapproved. -/
theorem consensus_approved_supermajority_and_quorum_witness :
    (3 * (runConsensus panelAllApprove).approvalCount >
      2 * (runConsensus panelAllApprove).validCount ∧
     3 ≤ (runConsensus panelAllApprove).validCount) ∧
    (runConsensus panelBelowQuorum).approved = false :=
  ⟨(consensus_approved_supermajority_and_quorum panelAllApprove).1 (by decide),
   (consensus_approved_supermajority_and_quorum panelBelowQuorum).2 (by decide)⟩

/-! ## On-ledger AidChain contract (src/unnamed/part_005): request ids and
the submitConsensus transition -/

/-- RequestStatus enum of IAidChain, in declaration order (numeric codes
0 to 9). -/
inductive RequestStatus
  | Submitted
  | Verified
  | Approved
  | Rejected
  | Funded
  | DeliverySubmitted
  | DeliveryVerified
  | DeliveryFailed
  | Settled
  | TimedOut
deriving Repr, DecidableEq

/-- The AidRequest struct of IAidChain. Addresses and bytes32 digests are
opaque strings; uint256 fields are ℕ; int64 coordinates (degrees × 1e7)
are ℤ. -/
structure LedgerAidRequest where
  id : Nat
  requester : String
  aidType : Nat
  urgency : Nat
  lat : Int
  lng : Int
  detailsHash : String
  status : RequestStatus
  createdAt : Nat
  galileoProofHash : String
  fdcEventId : String
  fdcProofHash : String
  verifiedAt : Nat
  consensusHash : String
  recommendedAid : Nat
  fulfillerType : Nat
  estimatedCostUSD : Nat
  fulfiller : String
  escrowAmount : Nat
  fundedAt : Nat
  deliveryProofHash : String
  deliveryLat : Int
  deliveryLng : Int
  deliveredAt : Nat
  deliveryVerificationHash : String
  settledAt : Nat
deriving Repr, DecidableEq

/-- The all-zero struct a Solidity mapping returns for an absent key. -/
def emptyRequest : LedgerAidRequest :=
  { id := 0, requester := "", aidType := 0, urgency := 0, lat := 0, lng := 0
    detailsHash := "", status := RequestStatus.Submitted, createdAt := 0
    galileoProofHash := "", fdcEventId := "", fdcProofHash := "", verifiedAt := 0
    consensusHash := "", recommendedAid := 0, fulfillerType := 0
    estimatedCostUSD := 0, fulfiller := "", escrowAmount := 0, fundedAt := 0
    deliveryProofHash := "", deliveryLat := 0, deliveryLng := 0, deliveredAt := 0
    deliveryVerificationHash := "", settledAt := 0 }

/-- Contract storage of AidChain. -/
structure LedgerState where
  owner : String
  oracleOperator : String
  nextRequestId : Nat
  aidRequests : List (Nat × LedgerAidRequest)
  userRequests : List (String × List Nat)
  approvedFulfillers : List String
  approvedPanelOperators : List String
deriving Repr, DecidableEq

/-- Read of a Solidity mapping slot (zero struct when never written). -/
def mapGet (m : List (Nat × LedgerAidRequest)) (k : Nat) : LedgerAidRequest :=
  ((m.find? (fun p => p.1 == k)).map (fun p => p.2)).getD emptyRequest

/-- Write of a Solidity mapping slot. -/
def mapSet (m : List (Nat × LedgerAidRequest)) (k : Nat) (v : LedgerAidRequest) :
    List (Nat × LedgerAidRequest) :=
  match m with
  | [] => [(k, v)]
  | (k2, v2) :: rest => if k2 == k then (k, v) :: rest else (k2, v2) :: mapSet rest k v

/-- requestAid: ids are assigned as nextRequestId and then incremented, so
ids are issued from 0 upward. The identity-registry check is supplied as a
boolean input of the transition. -/
def requestAid (s : LedgerState) (sender : String) (identityVerified : Bool)
    (aidType urgency : Nat) (lat lng : Int) (detailsHash : String)
    (timestamp : Nat) : Except String (Nat × LedgerState) :=
  if ¬ identityVerified then .error "AidChain: identity not verified"
  else if ¬ (aidType ≤ 5) then .error "AidChain: invalid aid type"
  else if ¬ (urgency ≤ 2) then .error "AidChain: invalid urgency"
  else
    let requestId := s.nextRequestId
    let r := { emptyRequest with
      id := requestId, requester := sender, aidType := aidType
      urgency := urgency, lat := lat, lng := lng, detailsHash := detailsHash
      status := RequestStatus.Submitted, createdAt := timestamp }
    let existing := ((s.userRequests.find? (fun p => p.1 == sender)).map
      (fun p => p.2)).getD []
    .ok (requestId,
      { s with
        nextRequestId := requestId + 1
        aidRequests := mapSet s.aidRequests requestId r
        userRequests :=
          (sender, existing ++ [requestId]) ::
            s.userRequests.filter (fun p => p.1 != sender) })

/-- Checked uint8 multiplication of Solidity 0.8: overflow reverts. -/
def u8mul (a b : Nat) : Except String Nat :=
  if a * b ≤ 255 then .ok (a * b) else .error "panic: arithmetic overflow"

/-- The supermajority comparison of AidChain.submitConsensus, with the
operand order and checked uint8 arithmetic of the source expression
approvalCount * 3 > nodeCount * 2. -/
def supermajorityCheck (approvalCount nodeCount : Nat) : Except String Bool := do
  let x ← u8mul approvalCount 3
  let y ← u8mul nodeCount 2
  .ok (decide (x > y))

/-- AidChain.submitConsensus: the require chain (panel operator, request
exists, status Verified, nodeCount ≥ 3, supermajority when approved) and the
storage update. The boolean disjunct short-circuits like Solidity ||, so the
arithmetic runs only when approved. -/
def submitConsensus (s : LedgerState) (sender : String) (requestId : Nat)
    (approved : Bool) (recommendedAid fulfillerType : Nat)
    (estimatedCostUSD : Nat) (consensusHash : String)
    (nodeCount approvalCount : Nat) : Except String LedgerState :=
  if ¬ s.approvedPanelOperators.contains sender then
    .error "AidChain: not panel operator"
  else if ¬ (requestId < s.nextRequestId) then
    .error "AidChain: request does not exist"
  else
    let r := mapGet s.aidRequests requestId
    if r.status ≠ RequestStatus.Verified then .error "AidChain: not verified"
    else if nodeCount < 3 then .error "AidChain: insufficient nodes"
    else
      match (if approved then supermajorityCheck approvalCount nodeCount
             else .ok true) with
      | .error e => .error e
      | .ok ok =>
        if ¬ ok then .error "AidChain: supermajority not met"
        else
          let r2 := { r with
            consensusHash := consensusHash
            recommendedAid := recommendedAid
            fulfillerType := fulfillerType
            estimatedCostUSD := estimatedCostUSD
            status := if approved then RequestStatus.Approved
                      else RequestStatus.Rejected }
          .ok { s with aidRequests := mapSet s.aidRequests requestId r2 }

/-- The bare on-ledger supermajority comparison approvalCount * 3 >
nodeCount * 2, as an arithmetic verdict over the counts the orchestrator
passes (the deployed 5-node panel stays far below the uint8 overflow bound). -/
def ledgerSupermajority (nodeCount approvalCount : Nat) : Bool :=
  decide (approvalCount * 3 > nodeCount * 2)

/-- A ledger with one request (id 0) in status Verified and one approved
panel operator, as left behind by requestAid plus verifyRequest. -/
def sampleVerifiedLedger : LedgerState :=
  { owner := "owner"
    oracleOperator := "oracle"
    nextRequestId := 1
    aidRequests :=
      [(0, { emptyRequest with
        id := 0, requester := "alice", aidType := 0, urgency := 1
        status := RequestStatus.Verified, galileoProofHash := "0xgal"
        verifiedAt := 100 })]
    userRequests := [("alice", [0])]
    approvedFulfillers := ["zipline"]
    approvedPanelOperators := ["panel-op"] }

/-- Five-node panel with one failed node: 4 parseable verdicts, 3 approvals.
The engine approves (9 > 8 over valid nodes) but the orchestrator passes the
total node count 5, over which the ledger check 9 > 10 fails. -/
def panelOneFailed : List NodeResult :=
  [mkFailedNode "gpt",
   mkNode "claude" (mkDecision true 140),
   mkNode "gemini" (mkDecision true 150),
   mkNode "mistral" (mkDecision true 160),
   mkNode "llama" (mkDecision false 0)]

example : (runConsensus panelOneFailed).approved = true := by decide
example : (runConsensus panelOneFailed).nodeCount = 5 := by decide
example : (runConsensus panelOneFailed).approvalCount = 3 := by decide

/-- C2 counterexample: with one failed node out of five the engine approves,
yet the ledger supermajority check over the node count the orchestrator
passes (the total count, 5) evaluates to the opposite verdict, and the
on-ledger submitConsensus transition reverts with "supermajority not met". -/
theorem consensus_vs_ledger_counterexample :
    (runConsensus panelOneFailed).approved = true ∧
    ledgerSupermajority (runConsensus panelOneFailed).nodeCount
      (runConsensus panelOneFailed).approvalCount = false ∧
    submitConsensus sampleVerifiedLedger "panel-op" 0 true
      (runConsensus panelOneFailed).recommendedAid
      (runConsensus panelOneFailed).fulfillerType
      150000000 "0xconsensus"
      (runConsensus panelOneFailed).nodeCount
      (runConsensus panelOneFailed).approvalCount
      = .error "AidChain: supermajority not met" := by
  refine ⟨by decide, by decide, ?_⟩
  rfl

/-- C2 amended: the engine test and the ledger check over the submitted node
count coincide exactly when every queried node returned a parseable verdict;
then valid_count equals the total node count the orchestrator passes. -/
theorem consensus_matches_ledger_when_all_valid (results : List NodeResult)
    (h : ∀ r ∈ results, r.decision.isSome = true) :
    ledgerSupermajority (runConsensus results).nodeCount
      (runConsensus results).approvalCount = (runConsensus results).approved := by
  have hv : validOf results = results := List.filter_eq_self.mpr h
  have hlen : (validOf results).length = results.length := by rw [hv]
  unfold runConsensus
  by_cases hq : (validOf results).length < 3
  · rw [if_pos hq]
    show ledgerSupermajority results.length 0 = false
    unfold ledgerSupermajority
    simp
  · rw [if_neg hq]
    show ledgerSupermajority results.length (approvalsOf results).length
      = approvedOf results
    unfold ledgerSupermajority approvedOf
    rw [hlen]

/-- Witness for C2 amended at the all-approve panel (all five verdicts
parseable). -/
theorem consensus_matches_ledger_when_all_valid_witness :
    ledgerSupermajority (runConsensus panelAllApprove).nodeCount
      (runConsensus panelAllApprove).approvalCount
      = (runConsensus panelAllApprove).approved :=
  consensus_matches_ledger_when_all_valid panelAllApprove (by decide)

/-! ## C3: the chosen cost estimate (median rule) -/

/-- The costs of the approving nodes, unsorted, in panel order. -/
def approvalCostsOf (results : List NodeResult) : List ℚ :=
  (approvalsOf results).map (fun d => d.estimatedCostUSD)

/-- The cost aggregation the spec claims: the median with the LOWER median on
an even count, that is the element at index (n − 1) / 2 of the ascending
sort. Stated from the words of the spec, for comparison with the code. -/
def specLowerMedianCost (l : List ℚ) : ℚ :=
  (List.insertionSort (· ≤ ·) l).getD ((l.length - 1) / 2) 0

/-- Five-node panel, 4 approving with costs 100, 200, 300, 400 and one valid
rejection: approved (12 > 10), even approver count. -/
def panelFourCosts : List NodeResult :=
  [mkNode "gpt" (mkDecision true 100),
   mkNode "claude" (mkDecision true 200),
   mkNode "gemini" (mkDecision true 300),
   mkNode "mistral" (mkDecision true 400),
   mkNode "llama" (mkDecision false 0)]

/-- C3 counterexample: on an approved consensus with an even number of
approvers the code picks sorted[⌊n/2⌋] — the UPPER median (300) — while the
claimed lower median of the approving costs is 200. -/
theorem consensus_cost_not_lower_median :
    (runConsensus panelFourCosts).approved = true ∧
    (runConsensus panelFourCosts).estimatedCostUSD = 300 ∧
    specLowerMedianCost (approvalCostsOf panelFourCosts) = 200 ∧
    (runConsensus panelFourCosts).estimatedCostUSD ≠
      specLowerMedianCost (approvalCostsOf panelFourCosts) := by
  refine ⟨by decide, by decide, by decide, by decide⟩

/-- Order-statistic bounds for an entry of a sorted list: at most i entries
are strictly below the element at index i, and more than i entries are at or
below it. -/
theorem countP_bounds_of_sorted (s : List ℚ) (hs : List.Sorted (· ≤ ·) s) :
    ∀ i, i < s.length →
      s.countP (fun y => decide (y < s.getD i 0)) ≤ i ∧
      i < s.countP (fun y => decide (y ≤ s.getD i 0)) := by
  induction s with
  | nil => intro i hi; simp at hi
  | cons a t ih =>
    have hrel : ∀ b ∈ t, a ≤ b := (List.sorted_cons.mp hs).1
    have hst : List.Sorted (· ≤ ·) t := (List.sorted_cons.mp hs).2
    intro i hi
    cases i with
    | zero =>
      constructor
      · have hz : t.countP (fun y => decide (y < a)) = 0 := by
          rw [List.countP_eq_zero]
          intro b hb
          simpa using not_lt.mpr (hrel b hb)
        simp [List.countP_cons, hz, List.getD_cons_zero]
      · simp [List.countP_cons, List.getD_cons_zero]
    | succ j =>
      have hj : j < t.length := by simpa using hi
      obtain ⟨h1, h2⟩ := ih hst j hj
      have hx : t.getD j 0 ∈ t := by
        rw [List.getD_eq_getElem t 0 hj]
        exact List.getElem_mem hj
      have hax : a ≤ t.getD j 0 := hrel _ hx
      rw [List.getD_cons_succ]
      refine ⟨?_, ?_⟩
      · rw [List.countP_cons]
        split <;> omega
      · rw [List.countP_cons,
          if_pos (show ((fun y => decide (y ≤ t.getD j 0)) a) = true from
            decide_eq_true hax)]
        omega

/-- C3 amended: for every approved consensus the chosen cost estimate is the
(⌊n/2⌋ + 1)-th smallest of the n approving costs — the true median when n is
odd and the UPPER median (the greater of the two middle values) when n is
even: it is one of the approving costs, at most ⌊n/2⌋ of them lie strictly
below it, and more than ⌊n/2⌋ of them lie at or below it. -/
theorem consensus_cost_is_upper_median (results : List NodeResult)
    (happ : (runConsensus results).approved = true) :
    (runConsensus results).estimatedCostUSD ∈ approvalCostsOf results ∧
    (approvalCostsOf results).countP
        (fun x => decide (x < (runConsensus results).estimatedCostUSD))
      ≤ (approvalCostsOf results).length / 2 ∧
    (approvalCostsOf results).length / 2 <
      (approvalCostsOf results).countP
        (fun x => decide (x ≤ (runConsensus results).estimatedCostUSD)) := by
  by_cases hq : (validOf results).length < 3
  · exfalso
    have : (runConsensus results).approved = false := by
      unfold runConsensus; rw [if_pos hq]
    rw [this] at happ; exact Bool.false_ne_true happ
  · have happ2 : approvedOf results = true := by
      have : (runConsensus results).approved = approvedOf results := by
        unfold runConsensus; rw [if_neg hq]
      rwa [this] at happ
    have hineq := of_decide_eq_true happ2
    have hpos : 0 < (approvalsOf results).length := by omega
    have hdo : (approvedOf results && decide (0 < (approvalsOf results).length)) = true := by
      simp [happ2, hpos]
    have hcost : (runConsensus results).estimatedCostUSD =
        (sortedCostsOf results).getD ((sortedCostsOf results).length / 2) 0 := by
      unfold runConsensus
      rw [if_neg hq]
      show (if (approvedOf results && decide (0 < (approvalsOf results).length)) = true
            then (sortedCostsOf results).getD ((sortedCostsOf results).length / 2) 0
            else 0) = _
      rw [if_pos hdo]
    have hperm : List.Perm (sortedCostsOf results) (approvalCostsOf results) :=
      List.perm_insertionSort (· ≤ ·) (approvalCostsOf results)
    have hsort : List.Sorted (· ≤ ·) (sortedCostsOf results) :=
      List.sorted_insertionSort (· ≤ ·) (approvalCostsOf results)
    have hlen : (sortedCostsOf results).length = (approvalCostsOf results).length :=
      hperm.length_eq
    have hlpos : 0 < (sortedCostsOf results).length := by
      rw [hlen]
      unfold approvalCostsOf
      simpa using hpos
    have hi : (sortedCostsOf results).length / 2 < (sortedCostsOf results).length :=
      Nat.div_lt_of_lt_mul (by omega)
    obtain ⟨hb1, hb2⟩ := countP_bounds_of_sorted (sortedCostsOf results) hsort _ hi
    have hmem : (runConsensus results).estimatedCostUSD ∈ sortedCostsOf results := by
      rw [hcost, List.getD_eq_getElem _ 0 hi]
      exact List.getElem_mem hi
    refine ⟨hperm.mem_iff.mp hmem, ?_, ?_⟩
    · have := hperm.countP_eq
        (fun x => decide (x < (runConsensus results).estimatedCostUSD))
      rw [← this, ← hlen, hcost]
      exact hb1
    · have := hperm.countP_eq
        (fun x => decide (x ≤ (runConsensus results).estimatedCostUSD))
      rw [← this, ← hlen, hcost]
      exact hb2

/-- Witness for C3 amended at the even-count panel: the chosen cost 300 is an
approving cost, with at most 2 of the 4 approving costs strictly below it and
more than 2 at or below it. -/
theorem consensus_cost_is_upper_median_witness :
    (runConsensus panelFourCosts).estimatedCostUSD ∈ approvalCostsOf panelFourCosts ∧
    (approvalCostsOf panelFourCosts).countP
        (fun x => decide (x < (runConsensus panelFourCosts).estimatedCostUSD))
      ≤ (approvalCostsOf panelFourCosts).length / 2 ∧
    (approvalCostsOf panelFourCosts).length / 2 <
      (approvalCostsOf panelFourCosts).countP
        (fun x => decide (x ≤ (runConsensus panelFourCosts).estimatedCostUSD)) :=
  consensus_cost_is_upper_median panelFourCosts (by decide)

/-! ## FDC event attestation engine (src/backend fdc.js): deduplication and
scoring. The haversine distance (metres) is an abstract parameter. -/

/-- A distance function taking lat1 lng1 lat2 lng2 to a distance in metres,
standing in for the transcendental haversine of the source. -/
abbrev Dist := ℚ → ℚ → ℚ → ℚ → ℚ

/-- A provider event as produced by queryGDACS / queryUSGS / queryReliefWeb
and consumed by deduplicateEvents and findBestMatch. -/
structure FdcEvent where
  id : String
  type : String
  name : String
  severity : String
  region : String
  lat : ℚ
  lng : ℚ
  radiusKm : ℚ
  active : Bool
  sources : List String
  startDate : String
deriving Repr, DecidableEq

/-- The merge test of deduplicateEvents: same type and centres within 50 km
(the source divides the metre distance by 1000). -/
def sameEventClose (dist : Dist) (existing e : FdcEvent) : Bool :=
  existing.type == e.type &&
    decide (dist existing.lat existing.lng e.lat e.lng / 1000 < 50)

/-- JavaScript [...new Set(l)]: removes later duplicates, keeping the first
occurrence of each element. -/
def jsSetDedup : List String → List String
  | [] => []
  | a :: l => a :: jsSetDedup (l.filter (fun b => b ≠ a))
termination_by l => l.length
decreasing_by
  simpa using Nat.lt_succ_of_le (List.length_filter_le _ l)

/-- The source's merge: existing.sources = [...new Set([...existing.sources,
...event.sources])], all other fields of the survivor unchanged. -/
def mergeSources (existing e : FdcEvent) : FdcEvent :=
  { existing with sources := jsSetDedup (existing.sources ++ e.sources) }

/-- The inner for-loop of deduplicateEvents over Object.keys(grouped): merge
the incoming event into the first grouped entry with the same type within
50 km (then break), or report none. -/
def mergeFirst (dist : Dist) :
    List (String × FdcEvent) → FdcEvent → Option (List (String × FdcEvent))
  | [], _ => none
  | (k, ex) :: rest, e =>
    if sameEventClose dist ex e then some ((k, mergeSources ex e) :: rest)
    else
      match mergeFirst dist rest e with
      | some rest2 => some ((k, ex) :: rest2)
      | none => none

/-- grouped[event.id] = {...event}: a JavaScript object keeps the original
position of an existing key and appends a new key. -/
def insertKeyed :
    List (String × FdcEvent) → String → FdcEvent → List (String × FdcEvent)
  | [], k, v => [(k, v)]
  | (k2, v2) :: rest, k, v =>
    if k2 == k then (k, v) :: rest else (k2, v2) :: insertKeyed rest k v

/-- One iteration of the outer for-loop of deduplicateEvents. -/
def dedupStep (dist : Dist) (g : List (String × FdcEvent)) (e : FdcEvent) :
    List (String × FdcEvent) :=
  match mergeFirst dist g e with
  | some g2 => g2
  | none => insertKeyed g e.id e

/-- deduplicateEvents: fold the events through the grouped object and return
Object.values(grouped) in insertion order. -/
def deduplicateEvents (dist : Dist) (events : List FdcEvent) : List FdcEvent :=
  (events.foldl (dedupStep dist) []).map Prod.snd

/-- The severity table of findBestMatch, with the || 0 fallback of the
source for unknown labels. -/
def severityScore (sev : String) : ℚ :=
  if sev == "critical" then 1
  else if sev == "severe" then 3/4
  else if sev == "moderate" then 1/2
  else if sev == "low" then 1/4
  else 0

/-- The score findBestMatch attaches to an event: proximity, source coverage
(sources.length / 3, not clamped in the source) and severity, with the
source's weights 0.5, 0.3, 0.2. -/
def scoreEvent (dist : Dist) (lat lng : ℚ) (e : FdcEvent) : ℚ :=
  let distance := dist lat lng e.lat e.lng / 1000
  let proximityScore := max 0 (1 - distance / e.radiusKm)
  let sourceScore := (e.sources.length : ℚ) / 3
  proximityScore * (1/2) + sourceScore * (3/10) + severityScore e.severity * (1/5)

/-- findBestMatch: score every deduplicated event, sort descending by score
(stably) and return the first, none on an empty list. -/
def findBestMatch (dist : Dist) (events : List FdcEvent) (lat lng : ℚ) :
    Option (FdcEvent × ℚ) :=
  match events with
  | [] => none
  | _ =>
    (List.insertionSort (fun a b : FdcEvent × ℚ => b.2 ≤ a.2)
      (events.map (fun e => (e, scoreEvent dist lat lng e)))).head?

/-- The three provider labels a source field can carry (each provider query
emits sources as a one-element list with its own label). -/
def providerLabels : List String := ["GDACS", "USGS", "ReliefWeb"]

/-- The four severity labels of the data model. -/
def severityLabels : List String := ["critical", "severe", "moderate", "low"]

theorem mem_jsSetDedup (l : List String) (x : String) :
    x ∈ jsSetDedup l ↔ x ∈ l := by
  induction l using jsSetDedup.induct with
  | case1 => simp [jsSetDedup]
  | case2 a l ih =>
    rw [jsSetDedup]
    constructor
    · intro h
      rcases List.mem_cons.mp h with h | h
      · exact h ▸ List.mem_cons_self a l
      · rcases List.mem_filter.mp (ih.mp h) with ⟨h2, _⟩
        exact List.mem_cons_of_mem a h2
    · intro h
      rcases List.mem_cons.mp h with h | h
      · exact h ▸ List.mem_cons_self a _
      · by_cases hxa : x = a
        · exact hxa ▸ List.mem_cons_self a _
        · exact List.mem_cons_of_mem a
            (ih.mpr (List.mem_filter.mpr ⟨h, by simpa using hxa⟩))

theorem nodup_jsSetDedup (l : List String) : (jsSetDedup l).Nodup := by
  induction l using jsSetDedup.induct with
  | case1 => simp [jsSetDedup]
  | case2 a l ih =>
    rw [jsSetDedup]
    refine List.nodup_cons.mpr ⟨?_, ih⟩
    intro hmem
    rcases List.mem_filter.mp ((mem_jsSetDedup _ a).mp hmem) with ⟨_, hne⟩
    simp at hne

theorem mem_mergeSources_sources (ex e : FdcEvent) (x : String) :
    x ∈ (mergeSources ex e).sources ↔ x ∈ ex.sources ∨ x ∈ e.sources := by
  unfold mergeSources
  simp [mem_jsSetDedup]

/-- Structure of a successful merge: the incoming event is merged into the
first close entry of the grouped object, whose sources become the merged
source list; all entries before it are not close, and everything else is
unchanged. -/
theorem mergeFirst_spec (dist : Dist) :
    ∀ (g : List (String × FdcEvent)) (e : FdcEvent) (g2 : List (String × FdcEvent)),
      mergeFirst dist g e = some g2 →
      ∃ pre k ex post,
        g = pre ++ (k, ex) :: post ∧
        sameEventClose dist ex e = true ∧
        (∀ p ∈ pre, sameEventClose dist p.2 e = false) ∧
        g2 = pre ++ (k, mergeSources ex e) :: post := by
  intro g
  induction g with
  | nil => intro e g2 h; simp [mergeFirst] at h
  | cons p rest ih =>
    intro e g2 h
    obtain ⟨k, ex⟩ := p
    rw [mergeFirst] at h
    by_cases hc : sameEventClose dist ex e = true
    · rw [if_pos hc] at h
      refine ⟨[], k, ex, rest, by simp, hc, by simp, ?_⟩
      simpa using (Option.some.inj h).symm
    · rw [if_neg hc] at h
      cases hrec : mergeFirst dist rest e with
      | none => rw [hrec] at h; exact absurd h (by simp)
      | some rest2 =>
        rw [hrec] at h
        have hg2 : g2 = (k, ex) :: rest2 := (Option.some.inj h).symm
        obtain ⟨pre, k2, ex2, post, hsplit, hclose, hfar, hres⟩ := ih e rest2 hrec
        refine ⟨(k, ex) :: pre, k2, ex2, post, by simp [hsplit], hclose, ?_, ?_⟩
        · intro q hq
          rcases List.mem_cons.mp hq with h2 | h2
          · rw [h2]
            exact Bool.not_eq_true _ ▸ eq_false_of_ne_true hc
          · exact hfar q h2
        · simp [hg2, hres]

/-- A failed merge scan means no grouped entry is close to the event. -/
theorem mergeFirst_eq_none (dist : Dist) :
    ∀ (g : List (String × FdcEvent)) (e : FdcEvent),
      mergeFirst dist g e = none → ∀ p ∈ g, sameEventClose dist p.2 e = false := by
  intro g
  induction g with
  | nil => intro e _ p hp; simp at hp
  | cons q rest ih =>
    intro e h p hp
    obtain ⟨k, ex⟩ := q
    rw [mergeFirst] at h
    by_cases hc : sameEventClose dist ex e = true
    · rw [if_pos hc] at h; exact absurd h (by simp)
    · rw [if_neg hc] at h
      cases hrec : mergeFirst dist rest e with
      | some rest2 => rw [hrec] at h; exact absurd h (by simp)
      | none =>
        rcases List.mem_cons.mp hp with h2 | h2
        · rw [h2]
          exact eq_false_of_ne_true hc
        · exact ih e hrec p h2

theorem mem_insertKeyed :
    ∀ (g : List (String × FdcEvent)) (k : String) (v : FdcEvent) (p : String × FdcEvent),
      p ∈ insertKeyed g k v → p ∈ g ∨ p = (k, v) := by
  intro g
  induction g with
  | nil => intro k v p hp; simp [insertKeyed] at hp; exact Or.inr hp
  | cons q rest ih =>
    intro k v p hp
    obtain ⟨k2, v2⟩ := q
    rw [insertKeyed] at hp
    by_cases hk : (k2 == k) = true
    · rw [if_pos hk] at hp
      rcases List.mem_cons.mp hp with h2 | h2
      · exact Or.inr h2
      · exact Or.inl (List.mem_cons_of_mem _ h2)
    · rw [if_neg hk] at hp
      rcases List.mem_cons.mp hp with h2 | h2
      · exact Or.inl (h2 ▸ List.mem_cons_self _ _)
      · rcases ih k v p h2 with h3 | h3
        · exact Or.inl (List.mem_cons_of_mem _ h3)
        · exact Or.inr h3

/-- The separation relation between grouped entries: not (same type within
50 km). -/
def FarRel (dist : Dist) (p q : String × FdcEvent) : Prop :=
  sameEventClose dist p.2 q.2 = false

theorem sameEventClose_symm (dist : Dist)
    (hsymm : ∀ a b c d : ℚ, dist c d a b = dist a b c d) (u v : FdcEvent) :
    sameEventClose dist u v = sameEventClose dist v u := by
  unfold sameEventClose
  rw [hsymm u.lat u.lng v.lat v.lng]
  by_cases ht : u.type = v.type
  · rw [ht]
  · rw [beq_eq_false_iff_ne.mpr ht, beq_eq_false_iff_ne.mpr (Ne.symm ht)]

theorem sameEventClose_eq_false_iff (dist : Dist) (u v : FdcEvent) :
    sameEventClose dist u v = false ↔
      ¬(u.type = v.type ∧ dist u.lat u.lng v.lat v.lng / 1000 < 50) := by
  unfold sameEventClose
  by_cases ht : u.type = v.type
  · simp [ht]
  · simp [ht, beq_eq_false_iff_ne.mpr ht]

theorem pairwise_insertKeyed (dist : Dist)
    (hsym : ∀ u v, sameEventClose dist u v = sameEventClose dist v u)
    (e : FdcEvent) :
    ∀ (g : List (String × FdcEvent)) (k : String),
      g.Pairwise (FarRel dist) →
      (∀ p ∈ g, sameEventClose dist p.2 e = false) →
      (insertKeyed g k e).Pairwise (FarRel dist) := by
  intro g
  induction g with
  | nil =>
    intro k _ _
    simp [insertKeyed]
  | cons q rest ih =>
    intro k hg hfar
    obtain ⟨k2, v2⟩ := q
    obtain ⟨hhead, htail⟩ := List.pairwise_cons.mp hg
    rw [insertKeyed]
    by_cases hk : (k2 == k) = true
    · rw [if_pos hk]
      refine List.pairwise_cons.mpr ⟨?_, htail⟩
      intro q2 hq2
      show sameEventClose dist e q2.2 = false
      rw [hsym e q2.2]
      exact hfar q2 (List.mem_cons_of_mem _ hq2)
    · rw [if_neg hk]
      refine List.pairwise_cons.mpr ⟨?_, ?_⟩
      · intro q2 hq2
        rcases mem_insertKeyed rest k e q2 hq2 with h2 | h2
        · exact hhead q2 h2
        · show sameEventClose dist v2 q2.2 = false
          rw [h2]
          exact hfar (k2, v2) (List.mem_cons_self _ _)
      · exact ih k htail (fun p hp => hfar p (List.mem_cons_of_mem _ hp))

theorem pairwise_dedupStep (dist : Dist)
    (hsym : ∀ u v, sameEventClose dist u v = sameEventClose dist v u)
    (g : List (String × FdcEvent)) (e : FdcEvent)
    (hg : g.Pairwise (FarRel dist)) :
    (dedupStep dist g e).Pairwise (FarRel dist) := by
  unfold dedupStep
  cases h : mergeFirst dist g e with
  | some g2 =>
    obtain ⟨pre, k, ex, post, hsplit, _, _, hres⟩ := mergeFirst_spec dist g e g2 h
    subst hres
    rw [hsplit] at hg
    rw [List.pairwise_append] at hg ⊢
    obtain ⟨hpre, hmid, hcross⟩ := hg
    obtain ⟨hheadrel, hpost⟩ := List.pairwise_cons.mp hmid
    refine ⟨hpre, List.pairwise_cons.mpr ⟨?_, hpost⟩, ?_⟩
    · intro q hq
      exact hheadrel q hq
    · intro a ha b hb
      rcases List.mem_cons.mp hb with h2 | h2
      · rw [h2]
        exact hcross a ha (k, ex) (List.mem_cons_self _ _)
      · exact hcross a ha b (List.mem_cons_of_mem _ h2)
  | none =>
    exact pairwise_insertKeyed dist hsym e g e.id hg (mergeFirst_eq_none dist g e h)

theorem pairwise_dedup_foldl (dist : Dist)
    (hsym : ∀ u v, sameEventClose dist u v = sameEventClose dist v u) :
    ∀ (events : List FdcEvent) (g : List (String × FdcEvent)),
      g.Pairwise (FarRel dist) →
      (events.foldl (dedupStep dist) g).Pairwise (FarRel dist) := by
  intro events
  induction events with
  | nil => intro g hg; exact hg
  | cons e rest ih =>
    intro g hg
    exact ih (dedupStep dist g e) (pairwise_dedupStep dist hsym g e hg)

/-- Invariant carried by every grouped record: duplicate-free source list
drawn from the three provider labels, and a known severity label. -/
def GoodEvent (e : FdcEvent) : Prop :=
  e.sources.Nodup ∧ e.sources ⊆ providerLabels ∧ e.severity ∈ severityLabels

theorem goodEvent_mergeSources (ex e : FdcEvent)
    (h1 : GoodEvent ex) (h2 : GoodEvent e) : GoodEvent (mergeSources ex e) := by
  refine ⟨nodup_jsSetDedup _, ?_, h1.2.2⟩
  intro x hx
  rcases (mem_mergeSources_sources ex e x).mp hx with h | h
  · exact h1.2.1 h
  · exact h2.2.1 h

theorem goodEvent_dedupStep (dist : Dist) (g : List (String × FdcEvent))
    (e : FdcEvent) (hg : ∀ p ∈ g, GoodEvent p.2) (he : GoodEvent e) :
    ∀ p ∈ dedupStep dist g e, GoodEvent p.2 := by
  unfold dedupStep
  cases h : mergeFirst dist g e with
  | some g2 =>
    obtain ⟨pre, k, ex, post, hsplit, _, _, hres⟩ := mergeFirst_spec dist g e g2 h
    subst hres
    intro p hp
    rcases List.mem_append.mp hp with h2 | h2
    · exact hg p (hsplit ▸ List.mem_append.mpr (Or.inl h2))
    · rcases List.mem_cons.mp h2 with h3 | h3
      · rw [h3]
        exact goodEvent_mergeSources ex e
          (hg (k, ex) (hsplit ▸ List.mem_append.mpr
            (Or.inr (List.mem_cons_self _ _)))) he
      · exact hg p (hsplit ▸ List.mem_append.mpr
          (Or.inr (List.mem_cons_of_mem _ h3)))
  | none =>
    intro p hp
    rcases mem_insertKeyed g e.id e p hp with h2 | h2
    · exact hg p h2
    · rw [h2]; exact he

theorem goodEvent_dedup_foldl (dist : Dist) :
    ∀ (events : List FdcEvent) (g : List (String × FdcEvent)),
      (∀ p ∈ g, GoodEvent p.2) → (∀ e ∈ events, GoodEvent e) →
      ∀ p ∈ events.foldl (dedupStep dist) g, GoodEvent p.2 := by
  intro events
  induction events with
  | nil => intro g hg _; exact hg
  | cons e rest ih =>
    intro g hg hev
    exact ih (dedupStep dist g e)
      (goodEvent_dedupStep dist g e hg (hev e (List.mem_cons_self _ _)))
      (fun e2 h2 => hev e2 (List.mem_cons_of_mem _ h2))

/-- C4: every event surviving deduplication and scored by findBestMatch gets
score = 0.5 · proximity + 0.3 · source_coverage + 0.2 · severity with
proximity = max(0, 1 − distance/event_radius) and source_coverage =
min(1, source_count / 3) — the clamp is vacuous because a survivor carries at
most the three provider labels — and the severity table maps critical to 1,
severe to 0.75, moderate to 0.5 and low to 0.25. The hypotheses record how
the providers build their events: a one-label source list and a known
severity. -/
theorem fdc_score_formula (dist : Dist) (lat lng : ℚ) (events : List FdcEvent)
    (hsrc : ∀ e ∈ events,
      e.sources = ["GDACS"] ∨ e.sources = ["USGS"] ∨ e.sources = ["ReliefWeb"])
    (hsev : ∀ e ∈ events, e.severity ∈ severityLabels) :
    (∀ e2 ∈ deduplicateEvents dist events,
      e2.severity ∈ severityLabels ∧
      scoreEvent dist lat lng e2 =
        (1/2) * max 0 (1 - (dist lat lng e2.lat e2.lng / 1000) / e2.radiusKm)
        + (3/10) * min 1 ((e2.sources.length : ℚ) / 3)
        + (1/5) * severityScore e2.severity) ∧
    severityScore "critical" = 1 ∧ severityScore "severe" = 3/4 ∧
    severityScore "moderate" = 1/2 ∧ severityScore "low" = 1/4 := by
  refine ⟨?_, by rfl, by rfl, by rfl, by rfl⟩
  intro e2 h2
  have hev : ∀ e ∈ events, GoodEvent e := by
    intro e he
    refine ⟨?_, ?_, hsev e he⟩
    · rcases hsrc e he with h | h | h <;> simp [h]
    · rcases hsrc e he with h | h | h <;>
        · rw [h]
          intro x hx
          simp at hx
          simp [providerLabels, hx]
  have hgood : GoodEvent e2 := by
    unfold deduplicateEvents at h2
    rcases List.mem_map.mp h2 with ⟨p, hp, hsnd⟩
    exact hsnd ▸ goodEvent_dedup_foldl dist events [] (by simp) hev p hp
  have hlen : e2.sources.length ≤ 3 := by
    have := (hgood.1.subperm hgood.2.1).length_le
    simpa [providerLabels] using this
  have hmin : min 1 ((e2.sources.length : ℚ) / 3) = (e2.sources.length : ℚ) / 3 := by
    refine min_eq_right ?_
    rw [div_le_one (by norm_num : (0:ℚ) < 3)]
    exact_mod_cast hlen
  refine ⟨hgood.2.2, ?_⟩
  rw [hmin]
  unfold scoreEvent
  ring

/-- C5: deduplication leaves no two distinct surviving events of the same
class with centres within 50 km of each other (for any symmetric distance,
so in particular for the haversine), and a merge replaces the surviving
entry's source set by the union of the merged events' source sets, leaving
every other entry unchanged. -/
theorem dedup_far_apart_and_merge_union (dist : Dist)
    (hsymm : ∀ a b c d : ℚ, dist c d a b = dist a b c d)
    (events : List FdcEvent) :
    (deduplicateEvents dist events).Pairwise
      (fun u v => ¬(u.type = v.type ∧ dist u.lat u.lng v.lat v.lng / 1000 < 50)) ∧
    (∀ (g : List (String × FdcEvent)) (e : FdcEvent) (g2 : List (String × FdcEvent)),
      mergeFirst dist g e = some g2 →
      ∃ pre k ex post,
        g = pre ++ (k, ex) :: post ∧
        sameEventClose dist ex e = true ∧
        g2 = pre ++ (k, mergeSources ex e) :: post ∧
        ∀ x, x ∈ (mergeSources ex e).sources ↔ x ∈ ex.sources ∨ x ∈ e.sources) := by
  have hsym : ∀ u v, sameEventClose dist u v = sameEventClose dist v u :=
    sameEventClose_symm dist hsymm
  constructor
  · have hp := pairwise_dedup_foldl dist hsym events [] List.Pairwise.nil
    unfold deduplicateEvents
    rw [List.pairwise_map]
    refine hp.imp ?_
    intro p q hpq
    exact (sameEventClose_eq_false_iff dist p.2 q.2).mp hpq
  · intro g e g2 h
    obtain ⟨pre, k, ex, post, hsplit, hclose, _, hres⟩ := mergeFirst_spec dist g e g2 h
    exact ⟨pre, k, ex, post, hsplit, hclose, hres, mem_mergeSources_sources ex e⟩

/-- A simple symmetric stand-in distance for concrete witnesses. -/
def zeroDist : Dist := fun _ _ _ _ => 0

/-- The dev-mode GDACS flood event (integer-rounded coordinates). -/
def gdacsFlood : FdcEvent :=
  { id := "gdacs-fl-2026-001", type := "flood", name := "Mozambique Flooding 2026"
    severity := "critical", region := "Zambezia Province, Mozambique"
    lat := -17, lng := 37, radiusKm := 200, active := true
    sources := ["GDACS"], startDate := "2026-01-28T00:00:00Z" }

/-- The dev-mode GDACS earthquake event (integer-rounded coordinates). -/
def gdacsQuake : FdcEvent :=
  { id := "gdacs-eq-2026-002", type := "earthquake", name := "Eastern Turkey Earthquake"
    severity := "severe", region := "Van Province, Turkey"
    lat := 38, lng := 43, radiusKm := 150, active := true
    sources := ["GDACS"], startDate := "2026-02-01T00:00:00Z" }

/-- A second flood report of the same event from another provider. -/
def usgsFlood : FdcEvent :=
  { gdacsFlood with id := "usgs-fl-2026-077", sources := ["USGS"] }

/-- Witness for C5 at concrete data: the two dev events (distinct classes)
survive pairwise separated, and merging a USGS flood report into the grouped
GDACS flood unions the source sets in place. -/
theorem dedup_far_apart_and_merge_union_witness :
    (deduplicateEvents zeroDist [gdacsFlood, gdacsQuake]).Pairwise
      (fun u v => ¬(u.type = v.type ∧ zeroDist u.lat u.lng v.lat v.lng / 1000 < 50)) ∧
    (∃ pre k ex post,
      [("gdacs-fl-2026-001", gdacsFlood)] = pre ++ (k, ex) :: post ∧
      sameEventClose zeroDist ex usgsFlood = true ∧
      [("gdacs-fl-2026-001", mergeSources gdacsFlood usgsFlood)] =
        pre ++ (k, mergeSources ex usgsFlood) :: post ∧
      ∀ x, x ∈ (mergeSources ex usgsFlood).sources ↔
        x ∈ ex.sources ∨ x ∈ usgsFlood.sources) :=
  ⟨(dedup_far_apart_and_merge_union zeroDist (fun _ _ _ _ => rfl)
      [gdacsFlood, gdacsQuake]).1,
   (dedup_far_apart_and_merge_union zeroDist (fun _ _ _ _ => rfl) []).2
      [("gdacs-fl-2026-001", gdacsFlood)] usgsFlood
      [("gdacs-fl-2026-001", mergeSources gdacsFlood usgsFlood)]
      (by
        have hclose : sameEventClose zeroDist gdacsFlood usgsFlood = true := by
          norm_num [sameEventClose, zeroDist, gdacsFlood, usgsFlood]
        simp [mergeFirst, hclose])⟩

/-- Witness for C4 at concrete data: the surviving flood event is scored by
the claimed formula. -/
theorem fdc_score_formula_witness :
    gdacsFlood.severity ∈ severityLabels ∧
    scoreEvent zeroDist (-17) 37 gdacsFlood =
      (1/2) * max 0 (1 - (zeroDist (-17) 37 gdacsFlood.lat gdacsFlood.lng / 1000)
          / gdacsFlood.radiusKm)
      + (3/10) * min 1 ((gdacsFlood.sources.length : ℚ) / 3)
      + (1/5) * severityScore gdacsFlood.severity :=
  (fdc_score_formula zeroDist (-17) 37 [gdacsFlood, gdacsQuake]
      (by intro e he
          rcases List.mem_cons.mp he with h | h
          · rw [h, gdacsFlood]; exact Or.inl rfl
          · rcases List.mem_cons.mp h with h2 | h2
            · rw [h2, gdacsQuake]; exact Or.inl rfl
            · simp at h2)
      (by intro e he
          rcases List.mem_cons.mp he with h | h
          · rw [h, gdacsFlood]; simp [severityLabels]
          · rcases List.mem_cons.mp h with h2 | h2
            · rw [h2, gdacsQuake]; simp [severityLabels]
            · simp at h2)).1
    gdacsFlood
    (by
      have hval : deduplicateEvents zeroDist [gdacsFlood, gdacsQuake] =
          [gdacsFlood, gdacsQuake] := rfl
      rw [hval]
      exact List.mem_cons_self _ _)

/-! ## Delivery verification (src/backend fulfillment.js) -/

/-- The 32-byte zero digest (ethers.ZeroHash). -/
def zeroHash : String :=
  "0x0000000000000000000000000000000000000000000000000000000000000000"

/-- The delivery proof object as posted to the confirm endpoint: drone proofs
carry drop coordinates, a camera image digest and a drone id; human proofs
carry an officer id and signature bytes. The source passes one untyped
object; absent string fields arrive as the empty (falsy) string. -/
structure DeliveryProofData where
  dropLat : ℚ
  dropLng : ℚ
  cameraImageHash : String
  droneId : String
  officerId : String
  signature : String
  timestamp : String
deriving Repr, DecidableEq

/-- Result of verifyDroneDelivery (the attestation fields that are data). -/
structure DroneVerification where
  verified : Bool
  gpsMatch : Bool
  cameraVerified : Bool
  gpsDistance : ℚ
deriving Repr, DecidableEq

/-- verifyDroneDelivery: gps ok iff the haversine distance from target to
drop is under 30 m; camera ok iff the image digest is truthy (non-empty) and
differs from the zero digest; verified iff both. gpsDistance is the distance
rounded to 0.1 m as in the source. -/
def verifyDroneDelivery (dist : Dist) (proofData : DeliveryProofData)
    (targetLat targetLng : ℚ) : DroneVerification :=
  let distance := dist targetLat targetLng proofData.dropLat proofData.dropLng
  let gpsMatch := decide (distance < 30)
  let cameraValid :=
    (proofData.cameraImageHash != "") && (proofData.cameraImageHash != zeroHash)
  { verified := gpsMatch && cameraValid
    gpsMatch := gpsMatch
    cameraVerified := cameraValid
    gpsDistance := (jsRound (distance * 10) : ℚ) / 10 }

/-- Result of verifyAuthorityDelivery. -/
structure AuthorityVerification where
  verified : Bool
  signatureValid : Bool
  officerValid : Bool
deriving Repr, DecidableEq

/-- verifyAuthorityDelivery: signature and officer id must be non-empty. -/
def verifyAuthorityDelivery (proofData : DeliveryProofData) : AuthorityVerification :=
  let signatureValid := decide (0 < proofData.signature.length)
  let officerValid := decide (0 < proofData.officerId.length)
  { verified := signatureValid && officerValid
    signatureValid := signatureValid
    officerValid := officerValid }

/-- verifyDelivery: dispatch on the delivery class string. -/
def verifyDelivery (dist : Dist) (deliveryType : String)
    (proofData : DeliveryProofData) (targetLat targetLng : ℚ) : Bool :=
  if deliveryType == "drone" then
    (verifyDroneDelivery dist proofData targetLat targetLng).verified
  else
    (verifyAuthorityDelivery proofData).verified

/-- C6: an aerial delivery proof is marked verified iff the target-to-drop
distance is under 30 metres and the payload image digest is present and
differs from the zero digest. -/
theorem drone_delivery_verified_iff (dist : Dist) (proofData : DeliveryProofData)
    (targetLat targetLng : ℚ) :
    (verifyDroneDelivery dist proofData targetLat targetLng).verified = true ↔
      (dist targetLat targetLng proofData.dropLat proofData.dropLng < 30 ∧
       proofData.cameraImageHash ≠ "" ∧ proofData.cameraImageHash ≠ zeroHash) := by
  unfold verifyDroneDelivery
  simp [and_assoc]

/-- A drone proof landing on target with a non-zero image digest. -/
def sampleDroneProof : DeliveryProofData :=
  { dropLat := 10, dropLng := 20, cameraImageHash := "0xdeadbeef"
    droneId := "ZPL-4001", officerId := "", signature := ""
    timestamp := "2026-02-06T10:00:00Z" }

/-- Witness for C6 at a concrete aerial proof: zero distance and a non-zero
digest verify. -/
theorem drone_delivery_verified_iff_witness :
    (verifyDroneDelivery zeroDist sampleDroneProof 10 20).verified = true :=
  (drone_delivery_verified_iff zeroDist sampleDroneProof 10 20).mpr
    ⟨by norm_num [zeroDist], by decide, by decide⟩

/-! ## Ledger adapter write discipline (src/backend blockchain.js) -/

/-- An error from an RPC attempt, tagged with whether it is transient
(timeout, temporary node error) or permanent (revert, invalid state). -/
structure ChainError where
  transient : Bool
  message : String
deriving Repr, DecidableEq

/-- Outcome of one complete write attempt (transaction send plus one-block
confirmation): the receipt hash or an error. -/
abbrev AttemptOutcome := Except ChainError String

/-- Embedding of the five oracle write operations of blockchain.js
(submitVerification, submitConsensusOnChain, assignFulfillerOnChain,
verifyDeliveryOnChain, releasePayoutOnChain): each awaits one transaction
send and one confirmation and returns the receipt; the adapter contains no
retry or backoff wrapper, so the result is the outcome of the single first
attempt. The environment gives the outcome attempt i would have, so the
spec's retry discipline can be stated over the same environment. -/
def adapterWrite (env : Nat → AttemptOutcome) : AttemptOutcome := env 0

/-- Modelled from the spec: the claimed adapter retry discipline, missing
from the source — on a transient failure retry with bounded exponential
backoff (3 attempts at 500 ms, 2 s, 8 s), surface the failure only after the
attempts are exhausted, and surface non-transient errors immediately. -/
def specRetryFrom (env : Nat → AttemptOutcome) : Nat → Nat → AttemptOutcome
  | i, 0 => env i
  | i, Nat.succ budget =>
    match env i with
    | .ok r => .ok r
    | .error e => if e.transient then specRetryFrom env (i + 1) budget else .error e

/-- Modelled from the spec: the claimed backoff delays in milliseconds. -/
def specBackoffMs : List Nat := [500, 2000, 8000]

/-- Modelled from the spec: a write under the claimed discipline of 3
attempts. -/
def specRetryWrite (env : Nat → AttemptOutcome) : AttemptOutcome :=
  specRetryFrom env 0 2

/-- An environment whose first attempt fails transiently and whose retry
would succeed. -/
def envTransientThenOk : Nat → AttemptOutcome := fun i =>
  if i == 0 then .error { transient := true, message := "RPC timeout" }
  else .ok "0xreceipt"

/-- C7 counterexample: on a transient first failure the adapter surfaces the
error immediately — after a single attempt, not after exhausting the claimed
3-attempt backoff — while the spec's discipline would have succeeded on the
retry. -/
theorem adapter_write_no_retry_counterexample :
    adapterWrite envTransientThenOk =
      .error { transient := true, message := "RPC timeout" } ∧
    specRetryWrite envTransientThenOk = .ok "0xreceipt" ∧
    adapterWrite envTransientThenOk ≠ specRetryWrite envTransientThenOk := by
  refine ⟨rfl, rfl, ?_⟩
  intro h
  rw [show adapterWrite envTransientThenOk =
      .error { transient := true, message := "RPC timeout" } from rfl,
    show specRetryWrite envTransientThenOk = .ok "0xreceipt" from rfl] at h
  exact Except.noConfusion h

/-- C7 amended: the adapter performs exactly one attempt per ledger write —
its behaviour is the spec's retry discipline with a budget of one attempt
and no backoff — so any failure, transient or not, surfaces to the caller
immediately. -/
theorem adapter_write_single_attempt (env : Nat → AttemptOutcome)
    (e : ChainError) (h : env 0 = .error e) :
    adapterWrite env = specRetryFrom env 0 0 ∧ adapterWrite env = .error e := by
  exact ⟨rfl, h⟩

/-- Witness for C7 amended at the transient-then-ok environment. -/
theorem adapter_write_single_attempt_witness :
    adapterWrite envTransientThenOk = specRetryFrom envTransientThenOk 0 0 ∧
    adapterWrite envTransientThenOk =
      .error { transient := true, message := "RPC timeout" } :=
  adapter_write_single_attempt envTransientThenOk
    { transient := true, message := "RPC timeout" } rfl

/-! ## Pipeline orchestrator registry (src/backend pipeline.js):
executePipeline and completeDelivery over the activePipelines map -/

/-- The in-memory pipeline record (stage timestamps abstracted away; the
claims concern existence in the registry). -/
structure PipelineState where
  requestId : Nat
  currentStage : Nat
  startTime : Nat
  error : Option String
deriving Repr, DecidableEq

/-- activePipelines: a JavaScript Map from request id to pipeline state. -/
abbrev Registry := List (Nat × PipelineState)

/-- Map.prototype.get. -/
def regGet (m : Registry) (k : Nat) : Option PipelineState :=
  (m.find? (fun p => p.1 == k)).map (fun p => p.2)

/-- Map.prototype.set (overwrite in place or append). -/
def regSet (m : Registry) (k : Nat) (v : PipelineState) : Registry :=
  match m with
  | [] => [(k, v)]
  | (k2, v2) :: rest => if k2 == k then (k, v) :: rest else (k2, v2) :: regSet rest k v

/-- Map.prototype.delete. -/
def regDelete (m : Registry) (k : Nat) : Registry :=
  m.filter (fun p => p.1 != k)

/-- The outcomes of the external calls a pipeline run makes, joined into one
environment: the Galileo verdict, the FDC verdict, the consensus outcome and
whether each ledger write / dispatch call succeeds. -/
structure PipelineEnv where
  galileoValid : Bool
  submitVerificationOk : Bool
  fdcVerified : Bool
  consensus : ConsensusOutcome
  submitConsensusOk : Bool
  assignFulfillerOk : Bool
  dispatchSuccess : Bool
deriving Repr, DecidableEq

/-- The try-block of executePipeline after record creation: stages 2 to 6 in
order, stopping with an error on the first failing verdict or throwing call
(the catch block records the error and returns failure). Returns the final
state of the mutated record and the success flag. -/
def runStages (env : PipelineEnv) (s : PipelineState) : PipelineState × Bool :=
  let s := { s with currentStage := 2 }
  if ¬ env.galileoValid then ({ s with error := some "galileo failed" }, false)
  else if ¬ env.submitVerificationOk then
    ({ s with error := some "chain write failed" }, false)
  else
    let s := { s with currentStage := 3 }
    if ¬ env.fdcVerified then ({ s with error := some "fdc failed" }, false)
    else
      let s := { s with currentStage := 4 }
      if ¬ env.consensus.approved then
        if ¬ env.submitConsensusOk then
          ({ s with error := some "chain write failed" }, false)
        else ({ s with error := some "consensus rejected" }, false)
      else if ¬ env.submitConsensusOk then
        ({ s with error := some "chain write failed" }, false)
      else
        let s := { s with currentStage := 5 }
        if ¬ env.assignFulfillerOk then
          ({ s with error := some "chain write failed" }, false)
        else
          let s := { s with currentStage := 6 }
          if ¬ env.dispatchSuccess then
            ({ s with error := some "dispatch failed" }, false)
          else (s, true)

/-- executePipeline: the record is inserted into activePipelines at entry and
is never removed in this function — both the successful return and the catch
return leave it in the map (the map holds the final mutated state). -/
def executePipeline (reg : Registry) (requestId now : Nat) (env : PipelineEnv) :
    Registry × Bool :=
  let s0 : PipelineState :=
    { requestId := requestId, currentStage := 1, startTime := now, error := none }
  let out := runStages env s0
  (regSet reg requestId out.1, out.2)

/-- The on-chain request as returned by the adapter's formatRequest to
completeDelivery (only the fields completeDelivery reads). -/
structure FormattedRequest where
  fulfillerType : String
  lat : ℚ
  lng : ℚ
deriving Repr, DecidableEq

/-- A ledger write attempted by completeDelivery. -/
inductive LedgerWriteCall
  | verifyDeliveryCall (requestId : Nat) (verified : Bool)
  | releasePayoutCall (requestId : Nat)
deriving Repr, DecidableEq

/-- Result of completeDelivery: the HTTP-facing outcome, the ledger writes
attempted (in order), and the registry afterwards. -/
structure CompleteDeliveryResult where
  success : Bool
  reason : Option String
  error : Option String
  writes : List LedgerWriteCall
  registry : Registry
deriving Repr, DecidableEq

/-- completeDelivery (stages 7+8): look up the pipeline record (its absence
is not checked), read the request from the ledger, verify the proof, write
verify_delivery, and on verification success write release_payout and delete
the record; a failed verification returns failure leaving the registry
untouched; a thrown ledger call is caught and returned as error. -/
def completeDelivery (dist : Dist) (reg : Registry) (requestId : Nat)
    (getReq : Except String FormattedRequest) (proofData : DeliveryProofData)
    (verifyWriteOk payoutWriteOk : Bool) : CompleteDeliveryResult :=
  match getReq with
  | .error e =>
    { success := false, reason := none, error := some e, writes := [], registry := reg }
  | .ok onChainReq =>
    let verified :=
      verifyDelivery dist onChainReq.fulfillerType proofData onChainReq.lat onChainReq.lng
    if ¬ verifyWriteOk then
      { success := false, reason := none, error := some "chain write failed"
        writes := [LedgerWriteCall.verifyDeliveryCall requestId verified]
        registry := reg }
    else if ¬ verified then
      { success := false, reason := some "Delivery verification failed", error := none
        writes := [LedgerWriteCall.verifyDeliveryCall requestId verified]
        registry := reg }
    else if ¬ payoutWriteOk then
      { success := false, reason := none, error := some "chain write failed"
        writes := [LedgerWriteCall.verifyDeliveryCall requestId verified,
                   LedgerWriteCall.releasePayoutCall requestId]
        registry := reg }
    else
      { success := true, reason := none, error := none
        writes := [LedgerWriteCall.verifyDeliveryCall requestId verified,
                   LedgerWriteCall.releasePayoutCall requestId]
        registry := regDelete reg requestId }

theorem regGet_regSet (m : Registry) (k : Nat) (v : PipelineState) :
    regGet (regSet m k v) k = some v := by
  induction m with
  | nil => simp [regSet, regGet]
  | cons p rest ih =>
    obtain ⟨k2, v2⟩ := p
    rw [regSet]
    by_cases hk : (k2 == k) = true
    · rw [if_pos hk]
      simp [regGet]
    · rw [if_neg hk]
      unfold regGet at ih ⊢
      rw [List.find?_cons_of_neg _ (by simpa using hk)]
      exact ih

theorem regDelete_of_absent (m : Registry) (k : Nat) (h : regGet m k = none) :
    regDelete m k = m := by
  have hf : List.find? (fun p => p.1 == k) m = none := by
    unfold regGet at h
    cases hf : List.find? (fun p => p.1 == k) m with
    | none => rfl
    | some q => rw [hf] at h; simp at h
  unfold regDelete
  rw [List.filter_eq_self]
  intro p hp
  have h2 := List.find?_eq_none.mp hf p hp
  simpa using h2

theorem regGet_regDelete (m : Registry) (k : Nat) :
    regGet (regDelete m k) k = none := by
  unfold regGet regDelete
  have hf : List.find? (fun p => p.1 == k) (List.filter (fun p => p.1 != k) m)
      = none := by
    rw [List.find?_eq_none]
    intro p hp
    have h2 := (List.mem_filter.mp hp).2
    simpa using h2
  rw [hf]
  rfl

/-- An environment where consensus rejects the request and every other
dependency behaves. -/
def envConsensusReject : PipelineEnv :=
  { galileoValid := true, submitVerificationOk := true, fdcVerified := true
    consensus := runConsensus panelBelowQuorum
    submitConsensusOk := true, assignFulfillerOk := true, dispatchSuccess := true }

/-- C8 counterexample: a pipeline that fails at consensus (the rejection is
written on-ledger, so the request reaches the terminal status Rejected)
returns failure yet leaves its record in the active-pipeline registry —
executePipeline never deletes, and completeDelivery deletes only on the
successful settlement path. -/
theorem pipeline_record_not_removed_counterexample :
    (executePipeline [] 7 0 envConsensusReject).2 = false ∧
    regGet (executePipeline [] 7 0 envConsensusReject).1 7 =
      some { requestId := 7, currentStage := 4, startTime := 0
             error := some "consensus rejected" } := by
  exact ⟨rfl, rfl⟩

/-- C8 amended: a pipeline record is created on submission and exists after
executePipeline returns whether it succeeded or failed; it is removed only
by the successful settlement path of completeDelivery, and every failure
path of completeDelivery (failed verification, failed ledger write, ledger
read error) leaves the registry unchanged. -/
theorem pipeline_record_lifecycle (reg : Registry) (requestId now : Nat)
    (env : PipelineEnv) (dist : Dist) (reg2 : Registry) (rid2 : Nat)
    (getReq : Except String FormattedRequest) (proofData : DeliveryProofData)
    (vok pok : Bool) :
    (regGet (executePipeline reg requestId now env).1 requestId).isSome = true ∧
    ((completeDelivery dist reg2 rid2 getReq proofData vok pok).success = true →
      regGet (completeDelivery dist reg2 rid2 getReq proofData vok pok).registry
        rid2 = none) ∧
    ((completeDelivery dist reg2 rid2 getReq proofData vok pok).success = false →
      (completeDelivery dist reg2 rid2 getReq proofData vok pok).registry = reg2) := by
  refine ⟨?_, ?_, ?_⟩
  · show (regGet (regSet reg requestId _) requestId).isSome = true
    rw [regGet_regSet]
    rfl
  · intro h
    cases getReq with
    | error e => simp [completeDelivery] at h
    | ok req =>
      by_cases hvv : vok = true
      · by_cases hver :
            verifyDelivery dist req.fulfillerType proofData req.lat req.lng = true
        · by_cases hp : pok = true
          · simp [completeDelivery, hvv, hver, hp, regGet_regDelete]
          · simp [completeDelivery, hvv, hver, hp] at h
        · simp [completeDelivery, hvv, hver] at h
      · simp [completeDelivery, hvv] at h
  · intro h
    cases getReq with
    | error e => rfl
    | ok req =>
      by_cases hvv : vok = true
      · by_cases hver :
            verifyDelivery dist req.fulfillerType proofData req.lat req.lng = true
        · by_cases hp : pok = true
          · simp [completeDelivery, hvv, hver, hp] at h
          · simp [completeDelivery, hvv, hver, hp]
        · simp [completeDelivery, hvv, hver]
      · simp [completeDelivery, hvv]

/-- An environment where every dependency behaves and consensus approves. -/
def envAllOk : PipelineEnv :=
  { galileoValid := true, submitVerificationOk := true, fdcVerified := true
    consensus := runConsensus panelAllApprove
    submitConsensusOk := true, assignFulfillerOk := true, dispatchSuccess := true }

/-- A registry entry for witnesses. -/
def sampleState : PipelineState :=
  { requestId := 9, currentStage := 6, startTime := 0, error := none }

/-- The on-chain request as completeDelivery reads it in witnesses. -/
def sampleFormattedRequest : FormattedRequest :=
  { fulfillerType := "drone", lat := 10, lng := 20 }

/-- Witness for C8 amended: after a successful pipeline run the record is
present; a settled delivery deletes the record; a failed payout write leaves
the registry unchanged. -/
theorem pipeline_record_lifecycle_witness :
    (regGet (executePipeline [] 9 0 envAllOk).1 9).isSome = true ∧
    regGet (completeDelivery zeroDist [(9, sampleState)] 9
        (.ok sampleFormattedRequest) sampleDroneProof true true).registry 9 = none ∧
    (completeDelivery zeroDist [(9, sampleState)] 9
        (.ok sampleFormattedRequest) sampleDroneProof true false).registry =
      [(9, sampleState)] :=
  ⟨(pipeline_record_lifecycle [] 9 0 envAllOk zeroDist [(9, sampleState)] 9
      (.ok sampleFormattedRequest) sampleDroneProof true true).1,
   (pipeline_record_lifecycle [] 9 0 envAllOk zeroDist [(9, sampleState)] 9
      (.ok sampleFormattedRequest) sampleDroneProof true true).2.1 rfl,
   (pipeline_record_lifecycle [] 9 0 envAllOk zeroDist [(9, sampleState)] 9
      (.ok sampleFormattedRequest) sampleDroneProof true false).2.2 rfl⟩

/-! ## WebSocket surface (src/backend server.js): subscription filter -/

/-- A connected WebSocket client: readyState (1 = OPEN) and the request id it
subscribed to, unset until a subscribe message arrives. -/
structure WsClient where
  readyState : Nat
  subscribedRequestId : Option Int
deriving Repr, DecidableEq

/-- The message handler: a subscribe message with a requestId field records
the subscription on the socket. -/
def handleSubscribe (c : WsClient) (msgType : String) (requestId : Option Int) :
    WsClient :=
  if msgType == "subscribe" then
    match requestId with
    | some rid => { c with subscribedRequestId := some rid }
    | none => c
  else c

/-- The broadcast filter of onPipelineEvent:
not ws.subscribedRequestId, or ws.subscribedRequestId === event.requestId.
An unset subscription and a subscription to 0 are both falsy in JavaScript,
so both pass the first disjunct. -/
def shouldSend (sub : Option Int) (eventRequestId : Int) : Bool :=
  match sub with
  | none => true
  | some v => (v == 0) || (v == eventRequestId)

/-- The clients a pipeline event is sent to: OPEN sockets passing the
filter. -/
def broadcastRecipients (clients : List WsClient) (eventRequestId : Int) :
    List WsClient :=
  clients.filter
    (fun c => (c.readyState == 1) && shouldSend c.subscribedRequestId eventRequestId)

/-- A fresh ledger: request ids start at 0. -/
def initialLedger : LedgerState :=
  { owner := "owner", oracleOperator := "oracle", nextRequestId := 0
    aidRequests := [], userRequests := [], approvedFulfillers := []
    approvedPanelOperators := [] }

/-- An OPEN client that subscribed to request id 0. -/
def clientSubZero : WsClient := { readyState := 1, subscribedRequestId := some 0 }

/-- C9 counterexample: request id 0 is a real id (the first requestAid on a
fresh ledger returns 0), yet a client subscribed to 0 still receives the
pipeline event of request 5 — the truthiness test treats a subscription to 0
as no subscription. -/
theorem ws_subscribe_zero_counterexample :
    (requestAid initialLedger "alice" true 0 1 (-17) 37 "0xdetails" 1000).toOption.map
        Prod.fst = some 0 ∧
    handleSubscribe { readyState := 1, subscribedRequestId := none } "subscribe"
        (some 0) = clientSubZero ∧
    broadcastRecipients [clientSubZero] 5 = [clientSubZero] ∧
    (5 : Int) ≠ 0 := by
  exact ⟨rfl, rfl, rfl, by decide⟩

/-- C9 amended: for every nonzero request id N, a client subscribed to N is
sent exactly the events of request N; unsubscribed clients receive all
events; but a client subscribed to request id 0 also receives all events. -/
theorem ws_subscription_filter (v eventRequestId : Int) (hv : v ≠ 0) :
    (shouldSend (some v) eventRequestId = true ↔ eventRequestId = v) ∧
    shouldSend none eventRequestId = true ∧
    shouldSend (some 0) eventRequestId = true := by
  refine ⟨?_, rfl, rfl⟩
  show ((v == 0) || (v == eventRequestId)) = true ↔ eventRequestId = v
  rw [beq_eq_false_iff_ne.mpr hv, Bool.false_or, beq_iff_eq]
  exact eq_comm

/-- Witness for C9 amended at concrete ids. -/
theorem ws_subscription_filter_witness :
    shouldSend (some 3) 3 = true ∧
    shouldSend none 7 = true ∧
    shouldSend (some 0) 7 = true :=
  ⟨((ws_subscription_filter 3 3 (by decide)).1).mpr rfl,
   (ws_subscription_filter 1 7 (by decide)).2.1,
   (ws_subscription_filter 1 7 (by decide)).2.2⟩

/-- C10: when the active-pipeline registry has no record for a request,
completeDelivery still runs entirely off the on-ledger record: it reads the
request, verifies the proof against the ledger's fulfiller class and target
coordinates, writes verify_delivery, writes release_payout exactly when the
verification passed, returns success iff verification passed, reports no
error, and leaves the registry as it was — the absent record is never
treated as an error. -/
theorem completeDelivery_without_pipeline_record (dist : Dist) (reg : Registry)
    (rid : Nat) (req : FormattedRequest) (proofData : DeliveryProofData)
    (hnone : regGet reg rid = none) :
    (completeDelivery dist reg rid (.ok req) proofData true true).success =
      verifyDelivery dist req.fulfillerType proofData req.lat req.lng ∧
    (completeDelivery dist reg rid (.ok req) proofData true true).error = none ∧
    (completeDelivery dist reg rid (.ok req) proofData true true).writes =
      LedgerWriteCall.verifyDeliveryCall rid
        (verifyDelivery dist req.fulfillerType proofData req.lat req.lng) ::
      (if verifyDelivery dist req.fulfillerType proofData req.lat req.lng = true
       then [LedgerWriteCall.releasePayoutCall rid] else []) ∧
    (completeDelivery dist reg rid (.ok req) proofData true true).registry = reg := by
  unfold completeDelivery
  by_cases hv : verifyDelivery dist req.fulfillerType proofData req.lat req.lng = true
  · simp [hv, regDelete_of_absent reg rid hnone]
  · have hv2 : verifyDelivery dist req.fulfillerType proofData req.lat req.lng
        = false := Bool.not_eq_true _ |>.mp hv
    simp [hv2]

/-- Witness for C10 at a concrete drone delivery with an empty registry. -/
theorem completeDelivery_without_pipeline_record_witness :
    (completeDelivery zeroDist [] 9 (.ok sampleFormattedRequest)
        sampleDroneProof true true).success =
      verifyDelivery zeroDist sampleFormattedRequest.fulfillerType
        sampleDroneProof sampleFormattedRequest.lat sampleFormattedRequest.lng ∧
    (completeDelivery zeroDist [] 9 (.ok sampleFormattedRequest)
        sampleDroneProof true true).error = none ∧
    (completeDelivery zeroDist [] 9 (.ok sampleFormattedRequest)
        sampleDroneProof true true).writes =
      LedgerWriteCall.verifyDeliveryCall 9
        (verifyDelivery zeroDist sampleFormattedRequest.fulfillerType
          sampleDroneProof sampleFormattedRequest.lat sampleFormattedRequest.lng) ::
      (if verifyDelivery zeroDist sampleFormattedRequest.fulfillerType
            sampleDroneProof sampleFormattedRequest.lat sampleFormattedRequest.lng = true
       then [LedgerWriteCall.releasePayoutCall 9] else []) ∧
    (completeDelivery zeroDist [] 9 (.ok sampleFormattedRequest)
        sampleDroneProof true true).registry = [] :=
  completeDelivery_without_pipeline_record zeroDist [] 9 sampleFormattedRequest
    sampleDroneProof rfl

end AidChain
